import Mathlib

/-!
Verification development for the Project Euler stats-card endpoint
(`api/euler-stats.py`).

The single source file exposes two pieces of logic:

* `get_euler_stats(username)` — fetches `https://projecteuler.net/profile/{username}.txt`
  and parses two integers (solved count and level) out of the first line of the
  comma-separated payload, returning a `(stats, error_message)` pair in which
  exactly one component is populated;
* `handle_request(path)` — the Flask handler that maps the query parameter and
  the fetch outcome to an SVG response with a status code and headers.

The embedding below is shallow and executable.  Strings are modelled over
their character lists (`String.data`); the Python string primitives used by
the source (`str.strip`, `str.split` on a one-character separator,
`str.isdigit`, `int(...)`, `str.lower`, substring membership, truthiness)
are each given an explicit ASCII-faithful model named `py...`.  The network
is an oracle: `UpstreamResult` enumerates the outcomes the code distinguishes
(a 2xx body, an HTTPError with a status code, a RequestException, any other
exception), and the handler receives the oracle and the two template-render
functions as parameters, since templates live outside the parsing logic.
-/

/-- Model of Python `str.strip()` on a character list: drop whitespace from
both ends (the source strips the response body, each comma field, nothing
else). -/
def pyStrip (cs : List Char) : List Char :=
  ((cs.dropWhile Char.isWhitespace).reverse.dropWhile Char.isWhitespace).reverse

/-- Model of Python `str.split(sep)` for a one-character separator, as used by
the source for `content.split('\n')` and `main_stats_line.split(',')`.
Like Python's, it always returns at least one (possibly empty) piece. -/
def splitOnChar (sep : Char) (cs : List Char) : List (List Char) :=
  match cs with
  | [] => [[]]
  | c :: rest =>
    let r := splitOnChar sep rest
    if c = sep then [] :: r
    else
      match r with
      | [] => [[c]]
      | g :: gs => (c :: g) :: gs

/-- Model of Python `str.isdigit()` restricted to ASCII: nonempty and every
character a decimal digit. -/
def pyIsdigit (cs : List Char) : Bool :=
  !cs.isEmpty && cs.all Char.isDigit

/-- Numeric value of a digit string, skipping the `_` grouping separators that
Python's `int(...)` accepts. -/
def digitsVal (cs : List Char) : Nat :=
  cs.foldl (fun a c => if c = '_' then a else 10 * a + (c.toNat - 48)) 0

/-- After the first character of a Python integer literal: digits, with single
`_` separators allowed only between digits. -/
def digitsCore : List Char → Bool
  | [] => true
  | '_' :: c :: cs => c.isDigit && digitsCore cs
  | ['_'] => false
  | c :: cs => c.isDigit && digitsCore cs

/-- Digit run acceptable to Python `int(...)` after the optional sign:
nonempty, starts with a digit, `_` only between digits. -/
def pyIntDigits (cs : List Char) : Bool :=
  match cs with
  | [] => false
  | c :: rest => c.isDigit && digitsCore rest

/-- Model of Python `int(s)` on an already-stripped ASCII string: optional
sign, then an underscore-grouped digit run; `none` models the `ValueError`
the source catches. -/
def pyInt (cs : List Char) : Option Int :=
  match cs with
  | '-' :: rest => if pyIntDigits rest then some (-(digitsVal rest : Int)) else none
  | '+' :: rest => if pyIntDigits rest then some (digitsVal rest : Int) else none
  | _ => if pyIntDigits cs then some (digitsVal cs : Int) else none

/-- The `Stats` value the fetch returns on success (the dictionary built at
the end of `get_euler_stats`). -/
structure Stats where
  username : String
  solved_count : Int
  level : Int
deriving DecidableEq, Repr

/-- The outcomes of `requests.get(url).raise_for_status()` that the source
distinguishes with its `except` clauses. -/
inductive UpstreamResult where
  /-- 2xx response carrying a text body. -/
  | success (body : String)
  /-- `requests.exceptions.HTTPError` carrying the response's status code. -/
  | httpError (statusCode : Nat)
  /-- `requests.exceptions.RequestException` (connection error, timeout). -/
  | requestException
  /-- any other exception, caught by the final `except Exception`. -/
  | otherException
deriving DecidableEq, Repr

/-- The inner `try` block of the parser (source lines 38-56): scan `parts[1:]`
for digit-only fields; with at least two of them take the first two, otherwise
fall back to `int(parts[3])` and `int(parts[4])`.  `Except.error` models the
`IndexError`/`ValueError` caught at line 58; the payload is the pair of
`Option` values the two assignments leave behind. -/
def tryBlock (parts : List (List Char)) : Except Unit (Option Int × Option Int) :=
  let potential_numbers := ((parts.drop 1).filter pyIsdigit).map (fun cs => (digitsVal cs : Int))
  match potential_numbers with
  | n0 :: n1 :: _ => .ok (some n0, some n1)
  | _ =>
    match parts[3]? with
    | none => .error ()
    | some p3 =>
      match pyInt p3 with
      | none => .error ()
      | some solved_count =>
        match parts[4]? with
        | none => .error ()
        | some p4 =>
          match pyInt p4 with
          | none => .error ()
          | some level => .ok (some solved_count, some level)

/-- Source lines 58-74: map an escaped `IndexError`/`ValueError` to the
parse-failure message, re-check the two `Option` values left by the try
block (line 62), and otherwise build the stats dictionary with the input
username. -/
def finishParse (username : String) : Except Unit (Option Int × Option Int) →
    Option Stats × Option String
  | .error _ => (none, some "Could not parse stats")
  | .ok (some solved_count, some level) =>
    (some { username := username, solved_count := solved_count, level := level }, none)
  | .ok _ => (none, some "Could not find stats")

/-- Body-processing part of `get_euler_stats` (source lines 24-74): strip the
body, split into lines, split the first line on commas stripping each field,
run the extraction heuristic, and assemble the result pair. -/
def parseBody (username body : String) : Option Stats × Option String :=
  match splitOnChar '\n' (pyStrip body.data) with
  | [] => (none, some "No data found in profile file")
  | line0 :: _ => finishParse username (tryBlock ((splitOnChar ',' line0).map pyStrip))

/-- `get_euler_stats` as a function of the upstream oracle's answer: the
`except` clauses at source lines 76-87 plus the success path. -/
def get_euler_stats (username : String) : UpstreamResult → Option Stats × Option String
  | .success body => parseBody username body
  | .httpError statusCode =>
    if statusCode == 404 then (none, some ("User '" ++ username ++ "' not found"))
    else (none, some "Project Euler request failed")
  | .requestException => (none, some "Could not connect to Project Euler")
  | .otherException => (none, some "An internal error occurred")

/-- The `parts` list the parser works on, derived from the body exactly as at
source lines 24-33: used to state the claims about the heuristic. -/
def payloadParts (body : String) : List (List Char) :=
  match splitOnChar '\n' (pyStrip body.data) with
  | [] => []
  | line0 :: _ => (splitOnChar ',' line0).map pyStrip

/-- Model of Python `str.lower()` (ASCII). -/
def pyLower (s : String) : String :=
  ⟨s.data.map Char.toLower⟩

/-- Substring occurrence on character lists (Python `needle in hay`). -/
def containsSub (needle : List Char) : List Char → Bool
  | [] => needle.isEmpty
  | c :: rest => needle.isPrefixOf (c :: rest) || containsSub needle rest

/-- Model of Python `needle in hay` for strings. -/
def pyContains (needle hay : String) : Bool :=
  containsSub needle.data hay.data

/-- Python truthiness of an optional string (`if not username`,
`if error_message`): `None` and the empty string are falsy. -/
def pyTruthy : Option String → Bool
  | none => false
  | some s => !(s == "")

/-- The fields of the Flask response the handler sets: body, Content-Type,
the optional Cache-Control header, and the status code. -/
structure HttpResponse where
  body : String
  contentType : String
  cacheControl : Option String
  status : Nat
deriving DecidableEq, Repr

/-- The Cache-Control value set at source line 119. -/
def cacheControlValue : String :=
  "public, max-age=3600, s-maxage=3600, stale-while-revalidate=1800"

/-- `handle_request` (source lines 94-121), parametrised by the two template
renderings (error message → SVG, stats → SVG) and by the upstream oracle.
The missing-username branch returns before the Cache-Control assignment; the
error branch picks 404 exactly when the lowered message contains
`"not found"`. -/
def handle_request (renderError : String → String) (renderStats : Stats → String)
    (username? : Option String) (upstream : String → UpstreamResult) : HttpResponse :=
  if pyTruthy username? then
    let username := username?.getD ""
    let result := get_euler_stats username (upstream username)
    if pyTruthy result.2 then
      { body := renderError (result.2.getD "")
        contentType := "image/svg+xml"
        cacheControl := some cacheControlValue
        status := if pyContains "not found" (pyLower (result.2.getD "")) then 404 else 500 }
    else
      { body := renderStats (result.1.getD { username := username, solved_count := 0, level := 0 })
        contentType := "image/svg+xml"
        cacheControl := some cacheControlValue
        status := 200 }
  else
    { body := renderError "Username required (?username=...)"
      contentType := "image/svg+xml"
      cacheControl := none
      status := 400 }

theorem splitOnChar_ne_nil (sep : Char) (cs : List Char) : splitOnChar sep cs ≠ [] := by
  cases cs with
  | nil => simp [splitOnChar]
  | cons c rest =>
    simp only [splitOnChar]
    split
    · simp
    · split <;> simp

theorem tryBlock_scan (parts : List (List Char)) (s0 s1 : List Char) (rest : List (List Char))
    (h : (parts.drop 1).filter pyIsdigit = s0 :: s1 :: rest) :
    tryBlock parts = .ok (some (digitsVal s0 : Int), some (digitsVal s1 : Int)) := by
  unfold tryBlock
  rw [h]
  rfl

theorem tryBlock_fallback (parts : List (List Char))
    (h : ((parts.drop 1).filter pyIsdigit).length < 2) :
    tryBlock parts =
      match parts[3]? with
      | none => .error ()
      | some p3 =>
        match pyInt p3 with
        | none => .error ()
        | some solved_count =>
          match parts[4]? with
          | none => .error ()
          | some p4 =>
            match pyInt p4 with
            | none => .error ()
            | some level => .ok (some solved_count, some level) := by
  unfold tryBlock
  rcases hf : (parts.drop 1).filter pyIsdigit with _ | ⟨a, _ | ⟨b, t⟩⟩
  · rfl
  · rfl
  · rw [hf] at h
    simp only [List.length_cons] at h
    exact absurd h (by omega)

theorem tryBlock_ok_shape (parts : List (List Char)) (r : Option Int × Option Int)
    (h : tryBlock parts = .ok r) : r.1.isSome = true ∧ r.2.isSome = true := by
  rcases hf : (parts.drop 1).filter pyIsdigit with _ | ⟨a, _ | ⟨b, t⟩⟩
  · have hlen : ((parts.drop 1).filter pyIsdigit).length < 2 := by
      rw [hf]
      decide
    rw [tryBlock_fallback parts hlen] at h
    split at h
    · cases h
    · split at h
      · cases h
      · split at h
        · cases h
        · split at h
          · cases h
          · cases h
            exact ⟨rfl, rfl⟩
  · have hlen : ((parts.drop 1).filter pyIsdigit).length < 2 := by
      rw [hf]
      simp only [List.length_cons, List.length_nil]
      omega
    rw [tryBlock_fallback parts hlen] at h
    split at h
    · cases h
    · split at h
      · cases h
      · split at h
        · cases h
        · split at h
          · cases h
          · cases h
            exact ⟨rfl, rfl⟩
  · rw [tryBlock_scan parts a b t hf] at h
    cases h
    exact ⟨rfl, rfl⟩

theorem containsSub_append_right (n r l : List Char) (h : containsSub n r = true) :
    containsSub n (l ++ r) = true := by
  induction l with
  | nil => simpa using h
  | cons c cs ih => simp [containsSub, ih]

theorem notFound_contains (u : String) :
    pyContains "not found" (pyLower ("User '" ++ u ++ "' not found")) = true := by
  have hd : (pyLower ("User '" ++ u ++ "' not found")).data =
      (("User '".data ++ u.data).map Char.toLower) ++ ("' not found".data.map Char.toLower) := by
    show ((("User '".data ++ u.data) ++ "' not found".data).map Char.toLower) = _
    rw [List.map_append]
  show containsSub "not found".data (pyLower ("User '" ++ u ++ "' not found")).data = true
  rw [hd]
  exact containsSub_append_right _ _ _ (by decide)

theorem notFound_ne_empty (u : String) : ("User '" ++ u ++ "' not found") ≠ "" := by
  intro h
  have h2 : some 'U' = (none : Option Char) := congrArg (fun s => s.data.head?) h
  cases h2

theorem notFound_ne_findMsg (u : String) :
    ("User '" ++ u ++ "' not found") ≠ "Could not find stats" := by
  intro h
  have h2 : some 'U' = some 'C' := congrArg (fun s => s.data.head?) h
  injection h2 with h3
  exact absurd h3 (by decide)

theorem pyTruthy_of_ne {s : String} (h : s ≠ "") : pyTruthy (some s) = true := by
  simp [pyTruthy, h]

theorem splitOnChar_exists_cons (sep : Char) (cs : List Char) :
    ∃ l t, splitOnChar sep cs = l :: t := by
  rcases h : splitOnChar sep cs with _ | ⟨l, t⟩
  · exact absurd h (splitOnChar_ne_nil sep cs)
  · exact ⟨l, t, rfl⟩

theorem payloadParts_cons (body : String) (line0 : List Char) (tl : List (List Char))
    (hsp : splitOnChar '\n' (pyStrip body.data) = line0 :: tl) :
    payloadParts body = (splitOnChar ',' line0).map pyStrip := by
  unfold payloadParts
  rw [hsp]

theorem parseBody_cons (username body : String) (line0 : List Char) (tl : List (List Char))
    (hsp : splitOnChar '\n' (pyStrip body.data) = line0 :: tl) :
    parseBody username body =
      finishParse username (tryBlock ((splitOnChar ',' line0).map pyStrip)) := by
  unfold parseBody
  rw [hsp]

theorem parseBody_cases (u body : String) :
    (∃ s, parseBody u body = (some s, none)) ∨
    (∃ m, parseBody u body = (none, some m) ∧ (m == "") = false ∧
      pyContains "not found" (pyLower m) = false) := by
  obtain ⟨line0, tl, hsp⟩ := splitOnChar_exists_cons '\n' (pyStrip body.data)
  rw [parseBody_cons u body line0 tl hsp]
  rcases htb : tryBlock ((splitOnChar ',' line0).map pyStrip) with e | ⟨a, b⟩
  · right
    exact ⟨_, rfl, by decide, by decide⟩
  · obtain ⟨h1, h2⟩ := tryBlock_ok_shape _ (a, b) htb
    rcases a with _ | av
    · simp at h1
    · rcases b with _ | bv
      · simp at h2
      · left
        exact ⟨_, rfl⟩

theorem scanPath_eq (username body : String) (s0 s1 : List Char) (rest : List (List Char))
    (h : ((payloadParts body).drop 1).filter pyIsdigit = s0 :: s1 :: rest) :
    get_euler_stats username (.success body) =
      (some { username := username, solved_count := (digitsVal s0 : Int),
              level := (digitsVal s1 : Int) }, none) := by
  obtain ⟨line0, tl, hsp⟩ := splitOnChar_exists_cons '\n' (pyStrip body.data)
  rw [payloadParts_cons body line0 tl hsp] at h
  show parseBody username body = _
  rw [parseBody_cons username body line0 tl hsp, tryBlock_scan _ s0 s1 rest h]
  rfl

theorem fallbackPath_eq (username body : String)
    (h : (((payloadParts body).drop 1).filter pyIsdigit).length < 2) :
    get_euler_stats username (.success body) =
      match (payloadParts body)[3]? with
      | none => (none, some "Could not parse stats")
      | some p3 =>
        match pyInt p3 with
        | none => (none, some "Could not parse stats")
        | some solved_count =>
          match (payloadParts body)[4]? with
          | none => (none, some "Could not parse stats")
          | some p4 =>
            match pyInt p4 with
            | none => (none, some "Could not parse stats")
            | some level =>
              (some { username := username, solved_count := solved_count,
                      level := level }, none) := by
  obtain ⟨line0, tl, hsp⟩ := splitOnChar_exists_cons '\n' (pyStrip body.data)
  have hp := payloadParts_cons body line0 tl hsp
  rw [hp] at h
  show parseBody username body = _
  rw [parseBody_cons username body line0 tl hsp, tryBlock_fallback _ h, hp]
  rcases h3 : ((splitOnChar ',' line0).map pyStrip)[3]? with _ | p3
  · simp only [h3]
    rfl
  · simp only [h3]
    rcases hi3 : pyInt p3 with _ | sc
    · simp only [hi3]
      rfl
    · simp only [hi3]
      rcases h4 : ((splitOnChar ',' line0).map pyStrip)[4]? with _ | p4
      · simp only [h4]
        rfl
      · simp only [h4]
        rcases hi4 : pyInt p4 with _ | lv
        · simp only [hi4]
          rfl
        · simp only [hi4]
          rfl

theorem handle_request_falsy (renderError : String → String) (renderStats : Stats → String)
    (username? : Option String) (upstream : String → UpstreamResult)
    (h : pyTruthy username? = false) :
    handle_request renderError renderStats username? upstream =
      { body := renderError "Username required (?username=...)"
        contentType := "image/svg+xml", cacheControl := none, status := 400 } := by
  unfold handle_request
  rw [h]
  rfl

theorem handle_request_ok (renderError : String → String) (renderStats : Stats → String)
    (u : String) (upstream : String → UpstreamResult) (stats : Stats) (hu : u ≠ "")
    (h : get_euler_stats u (upstream u) = (some stats, none)) :
    handle_request renderError renderStats (some u) upstream =
      { body := renderStats stats, contentType := "image/svg+xml"
        cacheControl := some cacheControlValue, status := 200 } := by
  unfold handle_request
  simp [pyTruthy_of_ne hu, h, pyTruthy, hu, Option.getD_some]

theorem handle_request_err (renderError : String → String) (renderStats : Stats → String)
    (u : String) (upstream : String → UpstreamResult) (m : String) (hu : u ≠ "") (hm : m ≠ "")
    (h : get_euler_stats u (upstream u) = (none, some m)) :
    handle_request renderError renderStats (some u) upstream =
      { body := renderError m, contentType := "image/svg+xml"
        cacheControl := some cacheControlValue
        status := if pyContains "not found" (pyLower m) then 404 else 500 } := by
  unfold handle_request
  simp [pyTruthy_of_ne hu, h, pyTruthy_of_ne hm, pyTruthy, hu, hm, Option.getD_some]

/-- Claim C1: for every fetched payload whose first line, split on commas with
each field whitespace-trimmed, contains at least two digit-only fields after
the first field, the parse succeeds and `solved_count`/`level` are the first
two such fields in left-to-right scan order over `parts[1:]`. -/
theorem claim_c1_scan_first_two (username body : String) (s0 s1 : List Char)
    (rest : List (List Char))
    (h : ((payloadParts body).drop 1).filter pyIsdigit = s0 :: s1 :: rest) :
    get_euler_stats username (.success body) =
      (some { username := username, solved_count := (digitsVal s0 : Int),
              level := (digitsVal s1 : Int) }, none) :=
  scanPath_eq username body s0 s1 rest h

/-- Witness for C1 at the spec's example payload
`alice,GB,Python,1234,5,2020-01-01,2024-01-01`. -/
theorem claim_c1_scan_first_two_witness :
    ((payloadParts "alice,GB,Python,1234,5,2020-01-01,2024-01-01").drop 1).filter pyIsdigit =
      ["1234".data, "5".data] ∧
    get_euler_stats "alice" (.success "alice,GB,Python,1234,5,2020-01-01,2024-01-01") =
      (some { username := "alice", solved_count := 1234, level := 5 }, none) :=
  ⟨by decide,
    (claim_c1_scan_first_two "alice" "alice,GB,Python,1234,5,2020-01-01,2024-01-01"
      "1234".data "5".data [] (by decide)).trans (by decide)⟩

/-- Claim C2: with fewer than two digit-only fields after the first field, the
parser falls back to `parts[3]` and `parts[4]`; an out-of-range index or a
field `int(...)` rejects yields the parse-failure error, and otherwise the
two parsed integers are returned. -/
theorem claim_c2_fallback (username body : String)
    (h : (((payloadParts body).drop 1).filter pyIsdigit).length < 2) :
    get_euler_stats username (.success body) =
      match (payloadParts body)[3]? with
      | none => (none, some "Could not parse stats")
      | some p3 =>
        match pyInt p3 with
        | none => (none, some "Could not parse stats")
        | some solved_count =>
          match (payloadParts body)[4]? with
          | none => (none, some "Could not parse stats")
          | some p4 =>
            match pyInt p4 with
            | none => (none, some "Could not parse stats")
            | some level =>
              (some { username := username, solved_count := solved_count,
                      level := level }, none) :=
  fallbackPath_eq username body h

/-- Witness for C2 at the spec's example payload `bob,US,,99,,x,y`: one digit
field only, `parts[4]` is empty, so the result is the parse failure. -/
theorem claim_c2_fallback_witness :
    (((payloadParts "bob,US,,99,,x,y").drop 1).filter pyIsdigit).length < 2 ∧
    get_euler_stats "bob" (.success "bob,US,,99,,x,y") =
      (none, some "Could not parse stats") :=
  ⟨by decide, (claim_c2_fallback "bob" "bob,US,,99,,x,y" (by decide)).trans (by decide)⟩

/-- Counterexample to claim C3 as stated: the positional fallback parses
signed fields, so a successful fetch can carry negative numbers — payload
`carol,GB,Python,-5,-7` has no digit-only fields, the fallback parses
`int("-5")` and `int("-7")`, and the fetch succeeds with them. -/
theorem claim_c3_counterexample :
    get_euler_stats "carol" (.success "carol,GB,Python,-5,-7") =
      (some { username := "carol", solved_count := -5, level := -7 }, none) ∧
    ¬(0 ≤ (-5 : Int)) := by decide

/-- Claim C3 (amended): on the scan path — at least two digit-only fields
after the first — the fetch succeeds and both numbers are non-negative; the
positional-fallback path guarantees integers but not non-negativity. -/
theorem claim_c3_scan_nonneg (username body : String)
    (h : 2 ≤ (((payloadParts body).drop 1).filter pyIsdigit).length) :
    ∃ stats : Stats, get_euler_stats username (.success body) = (some stats, none) ∧
      0 ≤ stats.solved_count ∧ 0 ≤ stats.level := by
  rcases hf : ((payloadParts body).drop 1).filter pyIsdigit with _ | ⟨s0, _ | ⟨s1, rest⟩⟩
  · rw [hf] at h
    simp only [List.length_nil] at h
    exact absurd h (by omega)
  · rw [hf] at h
    simp only [List.length_cons, List.length_nil] at h
    exact absurd h (by omega)
  · refine ⟨_, scanPath_eq username body s0 s1 rest hf, ?_, ?_⟩
    · exact Int.natCast_nonneg (digitsVal s0)
    · exact Int.natCast_nonneg (digitsVal s1)

/-- Witness for the amended C3 at the alice payload. -/
theorem claim_c3_scan_nonneg_witness :
    2 ≤ (((payloadParts "alice,GB,Python,1234,5,2020-01-01,2024-01-01").drop 1).filter
      pyIsdigit).length ∧
    ∃ stats : Stats,
      get_euler_stats "alice" (.success "alice,GB,Python,1234,5,2020-01-01,2024-01-01") =
        (some stats, none) ∧ 0 ≤ stats.solved_count ∧ 0 ≤ stats.level :=
  ⟨by decide,
    claim_c3_scan_nonneg "alice" "alice,GB,Python,1234,5,2020-01-01,2024-01-01" (by decide)⟩

/-- Counterexample to claim C4 as stated: with the `username` parameter
present but empty (`?username=`) the handler answers 400, although the
parameter is not missing, no stats were returned, the upstream never answered
404 and the claim's catch-all would demand 500 — the code's `if not username`
treats an empty value like a missing one. -/
theorem claim_c4_counterexample :
    (some "" : Option String) ≠ none ∧
    (handle_request (fun e => e) (fun _ => "") (some "")
      (fun _ => .otherException)).status = 400 ∧
    (handle_request (fun e => e) (fun _ => "") (some "")
      (fun _ => .otherException)).status ≠ 500 := by
  refine ⟨by decide, by decide, by decide⟩

/-- Claim C4 (amended): the status is 200 when the fetch returns stats, 400
when the username parameter is missing or present but empty, 404 exactly when
the upstream answered 404, and 500 on every other failure. -/
theorem claim_c4_status_mapping (renderError : String → String)
    (renderStats : Stats → String) (username? : Option String)
    (upstream : String → UpstreamResult) :
    (handle_request renderError renderStats username? upstream).status =
      match username? with
      | none => 400
      | some u =>
        if u = "" then 400
        else
          match get_euler_stats u (upstream u) with
          | (_, none) => 200
          | (_, some _) => if upstream u = .httpError 404 then 404 else 500 := by
  cases username? with
  | none => rfl
  | some u =>
    by_cases hu : u = ""
    · subst hu
      rw [handle_request_falsy renderError renderStats (some "") upstream (by decide)]
      simp
    · simp only [if_neg hu]
      cases hup : upstream u with
      | success body =>
        rcases parseBody_cases u body with ⟨s, hs⟩ | ⟨m, hm, hm0, hmnf⟩
        · have hs2 : get_euler_stats u (.success body) = (some s, none) := hs
          rw [handle_request_ok renderError renderStats u upstream s hu
            (by rw [hup]; exact hs2), hs2]
        · have hm2 : get_euler_stats u (.success body) = (none, some m) := hm
          have hmne : m ≠ "" := by
            intro h0
            rw [h0] at hm0
            simp at hm0
          rw [handle_request_err renderError renderStats u upstream m hu hmne
            (by rw [hup]; exact hm2), hm2]
          simp [hmnf]
      | httpError statusCode =>
        by_cases h404 : statusCode = 404
        · subst h404
          have hm2 : get_euler_stats u (.httpError 404) =
              (none, some ("User '" ++ u ++ "' not found")) := rfl
          rw [handle_request_err renderError renderStats u upstream
            ("User '" ++ u ++ "' not found") hu (notFound_ne_empty u)
            (by rw [hup]; exact hm2), hm2]
          simp [notFound_contains u]
        · have hm2 : get_euler_stats u (.httpError statusCode) =
              (none, some "Project Euler request failed") := by
            simp [get_euler_stats, h404]
          rw [handle_request_err renderError renderStats u upstream
            "Project Euler request failed" hu (by decide)
            (by rw [hup]; exact hm2), hm2]
          simp [h404,
            (by decide : pyContains "not found" (pyLower "Project Euler request failed") = false)]
      | requestException =>
        have hm2 : get_euler_stats u .requestException =
            (none, some "Could not connect to Project Euler") := rfl
        rw [handle_request_err renderError renderStats u upstream
          "Could not connect to Project Euler" hu (by decide)
          (by rw [hup]; exact hm2), hm2]
        simp [(by decide :
          pyContains "not found" (pyLower "Could not connect to Project Euler") = false)]
      | otherException =>
        have hm2 : get_euler_stats u .otherException =
            (none, some "An internal error occurred") := rfl
        rw [handle_request_err renderError renderStats u upstream
          "An internal error occurred" hu (by decide)
          (by rw [hup]; exact hm2), hm2]
        simp [(by decide :
          pyContains "not found" (pyLower "An internal error occurred") = false)]

/-- Claim C5: for every username and upstream outcome the fetch populates
exactly one of the stats value and the error message. -/
theorem claim_c5_exactly_one (username : String) (up : UpstreamResult) :
    (∃ stats, get_euler_stats username up = (some stats, none)) ∨
    (∃ msg, get_euler_stats username up = (none, some msg)) := by
  cases up with
  | success body =>
    rcases parseBody_cases username body with ⟨s, hs⟩ | ⟨m, hm, _, _⟩
    · exact Or.inl ⟨s, hs⟩
    · exact Or.inr ⟨m, hm⟩
  | httpError statusCode =>
    simp only [get_euler_stats]
    split
    · exact Or.inr ⟨_, rfl⟩
    · exact Or.inr ⟨_, rfl⟩
  | requestException => exact Or.inr ⟨_, rfl⟩
  | otherException => exact Or.inr ⟨_, rfl⟩

/-- Claim C6: an upstream body that is empty after stripping surrounding
whitespace makes the parse fail — the single empty field yields no digit-only
fields and `parts[3]` is out of range — and the handler then answers 500. -/
theorem claim_c6_empty_body (renderError : String → String) (renderStats : Stats → String)
    (username body : String) (upstream : String → UpstreamResult)
    (hbody : pyStrip body.data = [])
    (hu : username ≠ "")
    (hup : upstream username = .success body) :
    get_euler_stats username (.success body) = (none, some "Could not parse stats") ∧
    (handle_request renderError renderStats (some username) upstream).status = 500 := by
  have hfetch : get_euler_stats username (.success body) =
      (none, some "Could not parse stats") := by
    show parseBody username body = _
    unfold parseBody
    rw [hbody]
    rfl
  refine ⟨hfetch, ?_⟩
  rw [handle_request_err renderError renderStats username upstream "Could not parse stats"
    hu (by decide) (by rw [hup]; exact hfetch)]
  rfl

/-- Witness for C6 at the empty body. -/
theorem claim_c6_empty_body_witness :
    pyStrip ("" : String).data = [] ∧ ("alice" : String) ≠ "" ∧
    (fun (_ : String) => UpstreamResult.success "") "alice" = .success "" ∧
    get_euler_stats "alice" (.success "") = (none, some "Could not parse stats") ∧
    (handle_request (fun e => e) (fun _ => "") (some "alice")
      (fun _ => .success "")).status = 500 := by
  refine ⟨by decide, by decide, rfl, ?_, ?_⟩
  · exact (claim_c6_empty_body (fun e => e) (fun _ => "") "alice" "" (fun _ => .success "")
      (by decide) (by decide) rfl).1
  · exact (claim_c6_empty_body (fun e => e) (fun _ => "") "alice" "" (fun _ => .success "")
      (by decide) (by decide) rfl).2

theorem fetch_cases (username : String) (up : UpstreamResult) :
    (∃ stats, get_euler_stats username up = (some stats, none)) ∨
    (∃ msg, get_euler_stats username up = (none, some msg) ∧ msg ≠ "") := by
  cases up with
  | success body =>
    rcases parseBody_cases username body with ⟨s, hs⟩ | ⟨m, hm, hm0, _⟩
    · exact Or.inl ⟨s, hs⟩
    · refine Or.inr ⟨m, hm, ?_⟩
      intro h0
      rw [h0] at hm0
      simp at hm0
  | httpError statusCode =>
    simp only [get_euler_stats]
    split
    · exact Or.inr ⟨_, rfl, notFound_ne_empty username⟩
    · exact Or.inr ⟨_, rfl, by decide⟩
  | requestException => exact Or.inr ⟨_, rfl, by decide⟩
  | otherException => exact Or.inr ⟨_, rfl, by decide⟩

/-- Counterexample to claim C7 as stated: the missing-username 400 response is
returned before the Cache-Control assignment at source line 119, so it carries
no Cache-Control header at all. -/
theorem claim_c7_counterexample :
    (handle_request (fun e => e) (fun _ => "") none (fun _ => .otherException)).cacheControl
      = none ∧
    (handle_request (fun e => e) (fun _ => "") none (fun _ => .otherException)).cacheControl
      ≠ some cacheControlValue ∧
    (handle_request (fun e => e) (fun _ => "") none (fun _ => .otherException)).contentType
      = "image/svg+xml" := by
  refine ⟨rfl, by decide, rfl⟩

/-- Claim C7 (amended): every response carries content type `image/svg+xml`;
the responses built after a truthy username (success and every fetch-error
outcome) carry `Cache-Control: public, max-age=3600, s-maxage=3600,
stale-while-revalidate=1800`, while the missing/empty-username 400 response
carries no Cache-Control header. -/
theorem claim_c7_headers (renderError : String → String) (renderStats : Stats → String)
    (username? : Option String) (upstream : String → UpstreamResult) :
    (handle_request renderError renderStats username? upstream).contentType =
      "image/svg+xml" ∧
    (handle_request renderError renderStats username? upstream).cacheControl =
      (if pyTruthy username? then some cacheControlValue else none) := by
  cases htr : pyTruthy username? with
  | false =>
    rw [handle_request_falsy renderError renderStats username? upstream htr]
    exact ⟨rfl, rfl⟩
  | true =>
    cases username? with
    | none => simp [pyTruthy] at htr
    | some u =>
      have hu : u ≠ "" := by
        simp [pyTruthy] at htr
        exact htr
      rcases fetch_cases u (upstream u) with ⟨s, hs⟩ | ⟨m, hm, hmne⟩
      · rw [handle_request_ok renderError renderStats u upstream s hu hs]
        exact ⟨rfl, rfl⟩
      · rw [handle_request_err renderError renderStats u upstream m hu hmne hm]
        exact ⟨rfl, rfl⟩

/-- Claim C8: every successful fetch carries the input username in the stats,
whatever the payload's `parts[0]` held — the parsed username is ignored. -/
theorem claim_c8_username (username : String) (up : UpstreamResult) (stats : Stats)
    (h : get_euler_stats username up = (some stats, none)) :
    stats.username = username := by
  cases up with
  | success body =>
    obtain ⟨line0, tl, hsp⟩ := splitOnChar_exists_cons '\n' (pyStrip body.data)
    have h' : parseBody username body = (some stats, none) := h
    rw [parseBody_cons username body line0 tl hsp] at h'
    rcases htb : tryBlock ((splitOnChar ',' line0).map pyStrip) with e | ⟨a, b⟩
    · rw [htb] at h'
      simp [finishParse] at h'
    · rw [htb] at h'
      obtain ⟨h1, h2⟩ := tryBlock_ok_shape _ (a, b) htb
      rcases a with _ | av
      · simp at h1
      · rcases b with _ | bv
        · simp at h2
        · have h3 : some { username := username, solved_count := av, level := bv } =
              some stats := congrArg Prod.fst h'
          cases Option.some.inj h3
          rfl
  | httpError statusCode =>
    simp only [get_euler_stats] at h
    split at h <;> simp at h
  | requestException => simp [get_euler_stats] at h
  | otherException => simp [get_euler_stats] at h

/-- Witness for C8: the payload's own first field says `someoneelse`, yet the
returned stats carry the input username `alice`. -/
theorem claim_c8_username_witness :
    get_euler_stats "alice" (.success "someoneelse,GB,Python,1234,5") =
      (some { username := "alice", solved_count := 1234, level := 5 }, none) ∧
    ({ username := "alice", solved_count := 1234, level := 5 } : Stats).username = "alice" :=
  ⟨by decide,
    claim_c8_username "alice" (.success "someoneelse,GB,Python,1234,5") _ (by decide)⟩

/-- Claim C9: with the username parameter absent the handler answers 400 with
the rendered error image, and the response is independent of the upstream
oracle — the fetch is never consulted on this path. -/
theorem claim_c9_missing_username (renderError : String → String)
    (renderStats : Stats → String) (upstream upstream' : String → UpstreamResult) :
    handle_request renderError renderStats none upstream =
      { body := renderError "Username required (?username=...)"
        contentType := "image/svg+xml", cacheControl := none, status := 400 } ∧
    handle_request renderError renderStats none upstream =
      handle_request renderError renderStats none upstream' :=
  ⟨handle_request_falsy renderError renderStats none upstream rfl,
    (handle_request_falsy renderError renderStats none upstream rfl).trans
      (handle_request_falsy renderError renderStats none upstream' rfl).symm⟩

/-- Claim C10: whenever the try block completes without an exception both
numbers have been assigned, so the post-hoc check at source line 62 is dead:
no input makes the fetch return the `Could not find stats` message. -/
theorem claim_c10_dead_branch :
    (∀ parts : List (List Char),
      match tryBlock parts with
      | .ok r => r.1.isSome = true ∧ r.2.isSome = true
      | .error _ => True) ∧
    (∀ (username : String) (up : UpstreamResult),
      ((get_euler_stats username up).2 == some "Could not find stats") = false) := by
  constructor
  · intro parts
    rcases htb : tryBlock parts with e | r
    · exact trivial
    · exact tryBlock_ok_shape parts r htb
  · intro username up
    cases up with
    | success body =>
      obtain ⟨line0, tl, hsp⟩ := splitOnChar_exists_cons '\n' (pyStrip body.data)
      rw [show get_euler_stats username (.success body) = parseBody username body from rfl,
        parseBody_cons username body line0 tl hsp]
      rcases htb : tryBlock ((splitOnChar ',' line0).map pyStrip) with e | ⟨a, b⟩
      · rfl
      · obtain ⟨h1, h2⟩ := tryBlock_ok_shape _ (a, b) htb
        rcases a with _ | av
        · simp at h1
        · rcases b with _ | bv
          · simp at h2
          · rfl
    | httpError statusCode =>
      simp only [get_euler_stats]
      split
      · rw [beq_eq_false_iff_ne]
        simp [notFound_ne_findMsg username]
      · rfl
    | requestException => rfl
    | otherException => rfl
